import Mathlib

/-!
# Verification of the Albert API client dispatch layer

A shallow embedding of `albert_api.py` (the `AlbertAPI` class): client
construction, the unified request dispatcher `_make_request`, and the façade
operations the verified properties refer to (`create_collection`,
`create_token`, `transcribe_audio`, `parse_document`, `ocr_document`,
`create_document`, `get_documents`, `search`).

Modelling conventions:
* Python dictionaries become association lists with Python's insertion-order
  update semantics (`insertKey`, `dictMerge`).
* The HTTP library is modelled by a `TransportOutcome` input: either a raw
  response (status code, raw body, and the outcome of the library's JSON
  decoder on that body) or a connection-level failure description.
* Python exceptions raised by the client become the `PyError` sum; the
  functions return `Except PyError` values.
* Network side effects are made explicit: each operation returns a
  `CallResult` holding the (possibly updated) client state, the list of
  requests actually dispatched through the session, and the call's result.
-/

namespace Albert

/-- JSON-like values, the loosely-typed payloads the client exchanges. -/
inductive JsonValue where
  | null : JsonValue
  | bool (b : Bool) : JsonValue
  | int (n : Int) : JsonValue
  | str (s : String) : JsonValue
  | arr (xs : List JsonValue) : JsonValue
  | obj (fields : List (String × JsonValue)) : JsonValue

/-- Dictionary lookup on an association list (Python `d[k]` / `k in d`). -/
def lookupKey {α : Type} : List (String × α) → String → Option α
  | [], _ => none
  | (k, v) :: rest, key => if k = key then some v else lookupKey rest key

/-- Python `d[k] = v`: replace in place if the key exists, else append. -/
def insertKey {α : Type} : List (String × α) → String → α → List (String × α)
  | [], key, v => [(key, v)]
  | (k, w) :: rest, key, v =>
      if k = key then (k, v) :: rest else (k, w) :: insertKey rest key v

/-- Python `{**base, **extra}` / `base.update(extra)`: later keys override. -/
def dictMerge {α : Type} (base extra : List (String × α)) : List (String × α) :=
  extra.foldl (fun acc kv => insertKey acc kv.1 kv.2) base

/-- Field lookup inside a JSON object value. -/
def objLookup (j : JsonValue) (k : String) : Option JsonValue :=
  match j with
  | .obj fields => lookupKey fields k
  | _ => none

/-- Python `s.lstrip('/')` on the character list of `s`. -/
def lstripSlash (cs : List Char) : List Char :=
  cs.dropWhile (fun c => c = '/')

/-- Python `s.rstrip('/')` on the character list of `s`. -/
def rstripSlash (cs : List Char) : List Char :=
  (cs.reverse.dropWhile (fun c => c = '/')).reverse

/-- The URL composition of `_make_request`:
`f"{self.base_url.rstrip('/')}/{endpoint.lstrip('/')}"`. -/
def joinUrl (base endpoint : List Char) : List Char :=
  rstripSlash base ++ '/' :: lstripSlash endpoint

/-- String-level wrapper of `joinUrl`. -/
def joinUrlStr (base endpoint : String) : String :=
  String.mk (joinUrl base.data endpoint.data)

/-- Python `Path(p).name`: the final path component (characters after the
last slash). -/
def pathName (p : String) : String :=
  String.mk ((p.data.reverse.takeWhile (fun c => c ≠ '/')).reverse)

/-- The Python exceptions the client raises. -/
inductive PyError where
  | runtimeError (msg : String)
  | fileNotFoundError (msg : String)
  | valueError (msg : String)
deriving DecidableEq

/-- A raw HTTP response as the HTTP library hands it to the client.
`jsonResult` records what the library's `response.json()` returns for
`body`: the decoded value, or the decode failure's description. -/
structure RawResponse where
  statusCode : Nat
  body : String
  jsonResult : Except String JsonValue

/-- What the network produces for one dispatched request: a raw response,
or a connection-level failure (DNS, TCP reset, timeout) with the underlying
exception's description. -/
inductive TransportOutcome where
  | response (r : RawResponse)
  | connectionFailure (desc : String)

/-- The message of the exception `response.raise_for_status()` raises for a
4xx/5xx status; it embeds the status code and the URL, not the body. -/
def statusErrorMessage (code : Nat) (url : String) : String :=
  toString code ++ " Error for url: " ++ url

/-- The HTTP session: its only state is the default header mapping. -/
structure Session where
  headers : List (String × String)

/-- The constructed client (`self` after `__init__`). -/
structure Client where
  base_url : String
  api_key : String
  timeout : Nat
  session : Session

/-- The process environment as `__init__` consults it:
`ALBERT_API_BASE_URL` and `ALBERT_API_KEY` (absent, or set to a string). -/
structure Env where
  albert_api_base_url : Option String
  albert_api_key : Option String

/-- Python truthiness of a `str | None` value: `None` and `""` are falsy. -/
def pyTruthy : Option String → Bool
  | none => false
  | some s => !s.isEmpty

/-- Python `arg or env_value` for `str | None` operands. -/
def resolveArg (arg envVal : Option String) : Option String :=
  if pyTruthy arg then arg else envVal

/-- The `ValueError` message for a missing base URL. -/
def baseUrlRequiredMsg : String :=
  "Base URL is required. Set ALBERT_API_BASE_URL environment variable or pass base_url parameter."

/-- The `ValueError` message for a missing API key. -/
def apiKeyRequiredMsg : String :=
  "API key is required. Set ALBERT_API_KEY environment variable or pass api_key parameter."

/-- One file attached to a multipart request:
`files = {field_name: (file_name, f, content_type)}`. -/
structure FilePart where
  fieldName : String
  fileName : String
  contentType : String
deriving DecidableEq

/-- One request dispatched through the session
(`self.session.request(method=..., url=..., **kwargs)`). -/
structure Dispatch where
  method : String
  url : String
  headers : List (String × String)
  params : List (String × String)
  jsonBody : Option JsonValue
  dataFields : List (String × JsonValue)
  files : List FilePart

/-- The keyword arguments a façade method forwards to `_make_request`:
query parameters, a JSON body, multipart form fields, and file parts. -/
structure RequestArgs where
  params : List (String × String) := []
  jsonBody : Option JsonValue := none
  dataFields : List (String × JsonValue) := []
  files : List FilePart := []

/-- The observable effect of one client call: the client state afterwards,
the requests dispatched through the session, and the returned value or the
raised exception. -/
structure CallResult where
  client : Client
  trace : List Dispatch
  result : Except PyError JsonValue

/-- `AlbertAPI.__init__`: resolve the base URL and API key against the
environment, raise `ValueError` if either is falsy, then create the session
and set its default headers. No request is dispatched (the trace is empty). -/
def init (base_url api_key : Option String) (timeout : Nat) (env : Env) :
    List Dispatch × Except PyError Client :=
  let bu := resolveArg base_url env.albert_api_base_url
  let ak := resolveArg api_key env.albert_api_key
  if !pyTruthy bu then
    ([], .error (.valueError baseUrlRequiredMsg))
  else if !pyTruthy ak then
    ([], .error (.valueError apiKeyRequiredMsg))
  else
    ([], .ok
      { base_url := bu.getD ""
        api_key := ak.getD ""
        timeout := timeout
        session :=
          { headers :=
              [("Authorization", "Bearer " ++ ak.getD ""),
               ("Content-Type", "application/json")] } })

/-- The response-interpretation half of `_make_request`:
`raise_for_status()` (any 4xx/5xx becomes a request exception whose message
embeds status and URL), then the 204 no-content short-circuit, then
`response.json()`.  The two `except` clauses re-raise request exceptions as
`RuntimeError("API request failed: ...")` and JSON decode errors as
`RuntimeError("Failed to parse JSON response: ...")`. -/
def interpretOutcome (url : String) (outcome : TransportOutcome) :
    Except PyError JsonValue :=
  match outcome with
  | .connectionFailure desc =>
      .error (.runtimeError ("API request failed: " ++ desc))
  | .response r =>
      if 400 ≤ r.statusCode ∧ r.statusCode < 600 then
        .error (.runtimeError
          ("API request failed: " ++ statusErrorMessage r.statusCode url))
      else if r.statusCode = 204 then
        .ok (.obj [])
      else
        match r.jsonResult with
        | .ok v => .ok v
        | .error desc =>
            .error (.runtimeError ("Failed to parse JSON response: " ++ desc))

/-- `AlbertAPI._make_request`: compose the URL from the configured base URL
and the endpoint, dispatch exactly one request through the session (which
supplies its default headers), and interpret the outcome. The client state
is returned unchanged: the method assigns to no attribute. -/
def _make_request (c : Client) (method endpoint : String) (args : RequestArgs)
    (outcome : TransportOutcome) : CallResult :=
  let url := joinUrlStr c.base_url endpoint
  { client := c
    trace :=
      [{ method := method
         url := url
         headers := c.session.headers
         params := args.params
         jsonBody := args.jsonBody
         dataFields := args.dataFields
         files := args.files }]
    result := interpretOutcome url outcome }

/-- Python `None`-or-string serialized into JSON (`None` becomes `null`). -/
def optStrToJson : Option String → JsonValue
  | none => .null
  | some s => .str s

/-- `AlbertAPI.create_collection`: the JSON body is the dict literal
`{"name": name, "description": description, "visibility": visibility}` —
`description` is always present, `None` serializing as JSON `null`. -/
def create_collection (c : Client) (name : String) (description : Option String)
    (visibility : String) (outcome : TransportOutcome) : CallResult :=
  let data : JsonValue :=
    .obj [("name", .str name), ("description", optStrToJson description),
          ("visibility", .str visibility)]
  _make_request c "POST" "/v1/collections" { jsonBody := some data } outcome

/-- `AlbertAPI.create_token`: the body starts as `{"name": name}` and the
`user` / `expires_at` keys are added only when the argument is not `None`. -/
def create_token (c : Client) (name : String) (user expires_at : Option Int)
    (outcome : TransportOutcome) : CallResult :=
  let data0 : List (String × JsonValue) := [("name", .str name)]
  let data1 :=
    match user with
    | none => data0
    | some u => insertKey data0 "user" (.int u)
  let data2 :=
    match expires_at with
    | none => data1
    | some e => insertKey data1 "expires_at" (.int e)
  _make_request c "POST" "/tokens" { jsonBody := some (.obj data2) } outcome

/-- `AlbertAPI.get_documents`: query params are `{"limit": ..., "offset": ...}`
plus `"collection"` only when `collection_id is not None`. -/
def get_documents (c : Client) (collection_id : Option Int) (limit offset : Int)
    (outcome : TransportOutcome) : CallResult :=
  let params0 : List (String × String) :=
    [("limit", toString limit), ("offset", toString offset)]
  let params :=
    match collection_id with
    | none => params0
    | some cid => insertKey params0 "collection" (toString cid)
  _make_request c "GET" "/v1/documents" { params := params } outcome

/-- `AlbertAPI.search`: the JSON body is
`{"prompt": prompt, "collections": collections or [], **kwargs}`;
`collections or []` maps both `None` and `[]` to `[]`. -/
def search (c : Client) (prompt : String) (collections : Option (List Int))
    (kwargs : List (String × JsonValue)) (outcome : TransportOutcome) : CallResult :=
  let colls : List Int :=
    match collections with
    | none => []
    | some l => if l.isEmpty then [] else l
  let data :=
    dictMerge
      [("prompt", .str prompt), ("collections", .arr (colls.map JsonValue.int))]
      kwargs
  _make_request c "POST" "/v1/search" { jsonBody := some (.obj data) } outcome

/-- The local filesystem as the client observes it: the set of paths for
which `Path(p).exists()` holds. -/
abbrev FileSystem := List String

/-- `AlbertAPI.transcribe_audio`: raise `FileNotFoundError` before any
dispatch when the path does not exist; otherwise send one multipart request
with form fields `{"model": model, **kwargs}` and the `audio/mpeg` file part. -/
def transcribe_audio (c : Client) (fs : FileSystem) (file_path model : String)
    (kwargs : List (String × JsonValue)) (outcome : TransportOutcome) : CallResult :=
  if file_path ∈ (fs : List String) then
    _make_request c "POST" "/v1/audio/transcriptions"
      { dataFields := dictMerge [("model", .str model)] kwargs
        files := [{ fieldName := "file", fileName := pathName file_path,
                    contentType := "audio/mpeg" }] }
      outcome
  else
    { client := c
      trace := []
      result := .error (.fileNotFoundError ("Audio file not found: " ++ file_path)) }

/-- `AlbertAPI.parse_document`: existence check, then one multipart request
to `/v1/parse-beta` with `data = kwargs` and an `application/pdf` file part. -/
def parse_document (c : Client) (fs : FileSystem) (file_path : String)
    (kwargs : List (String × JsonValue)) (outcome : TransportOutcome) : CallResult :=
  if file_path ∈ (fs : List String) then
    _make_request c "POST" "/v1/parse-beta"
      { dataFields := kwargs
        files := [{ fieldName := "file", fileName := pathName file_path,
                    contentType := "application/pdf" }] }
      outcome
  else
    { client := c
      trace := []
      result := .error (.fileNotFoundError ("Document file not found: " ++ file_path)) }

/-- `AlbertAPI.ocr_document`: existence check, then one multipart request to
`/v1/ocr-beta` with form fields `{"model": model, **kwargs}`. -/
def ocr_document (c : Client) (fs : FileSystem) (file_path model : String)
    (kwargs : List (String × JsonValue)) (outcome : TransportOutcome) : CallResult :=
  if file_path ∈ (fs : List String) then
    _make_request c "POST" "/v1/ocr-beta"
      { dataFields := dictMerge [("model", .str model)] kwargs
        files := [{ fieldName := "file", fileName := pathName file_path,
                    contentType := "application/pdf" }] }
      outcome
  else
    { client := c
      trace := []
      result := .error (.fileNotFoundError ("PDF file not found: " ++ file_path)) }

/-- `AlbertAPI.create_document`: existence check, then one multipart request
to `/v1/documents` with form fields `{"collection": collection_id, **kwargs}`. -/
def create_document (c : Client) (fs : FileSystem) (file_path : String)
    (collection_id : Int) (kwargs : List (String × JsonValue))
    (outcome : TransportOutcome) : CallResult :=
  if file_path ∈ (fs : List String) then
    _make_request c "POST" "/v1/documents"
      { dataFields := dictMerge [("collection", .int collection_id)] kwargs
        files := [{ fieldName := "file", fileName := pathName file_path,
                    contentType := "application/pdf" }] }
      outcome
  else
    { client := c
      trace := []
      result := .error (.fileNotFoundError ("Document file not found: " ++ file_path)) }

/-- A concrete client for closed instances: the result of constructing with
an explicit base URL and API key. -/
def demoClient : Client :=
  { base_url := "https://albert.api.etalab.gouv.fr"
    api_key := "secret-key"
    timeout := 30
    session :=
      { headers :=
          [("Authorization", "Bearer secret-key"),
           ("Content-Type", "application/json")] } }

/-- A concrete successful response with an empty JSON object body. -/
def demoOutcome : TransportOutcome :=
  .response { statusCode := 200, body := "{}", jsonResult := .ok (.obj []) }

/-- A 404 response whose raw body is one platform-specific detail string. -/
def resp404A : RawResponse :=
  { statusCode := 404, body := "collection 42 does not exist",
    jsonResult := .error "Expecting value: line 1 column 1 (char 0)" }

/-- A 404 response with the same status but a different raw body. -/
def resp404B : RawResponse :=
  { statusCode := 404, body := "quota exhausted for this key",
    jsonResult := .error "Expecting value: line 1 column 1 (char 0)" }

/-! ## Helper lemmas -/

theorem head_dropWhile_false {α : Type} (p : α → Bool) :
    ∀ (l : List α) (a : α), (l.dropWhile p).head? = some a → p a = false := by
  intro l
  induction l with
  | nil =>
      intro a h
      simp [List.dropWhile] at h
  | cons x xs ih =>
      intro a h
      rw [List.dropWhile_cons] at h
      by_cases hx : p x = true
      · rw [if_pos hx] at h
        exact ih a h
      · rw [if_neg hx] at h
        simp only [List.head?_cons, Option.some.injEq] at h
        subst h
        exact Bool.eq_false_iff.mpr hx

theorem rstripSlash_no_trailing (l : List Char) :
    (rstripSlash l).getLast? ≠ some '/' := by
  intro h
  unfold rstripSlash at h
  rw [List.getLast?_reverse] at h
  have := head_dropWhile_false (fun c => c = '/') l.reverse '/' h
  simp at this

theorem lstripSlash_no_leading (l : List Char) :
    (lstripSlash l).head? ≠ some '/' := by
  intro h
  have := head_dropWhile_false (fun c => c = '/') l '/' h
  simp at this

theorem rstripSlash_append_slash (l : List Char) :
    rstripSlash (l ++ ['/']) = rstripSlash l := by
  unfold rstripSlash
  rw [List.reverse_append]
  simp [List.dropWhile_cons]

theorem lstripSlash_cons_slash (l : List Char) :
    lstripSlash ('/' :: l) = lstripSlash l := by
  simp [lstripSlash, List.dropWhile_cons]

theorem lookupKey_insertKey_ne {α : Type} (l : List (String × α)) (k k2 : String)
    (v : α) (h : k ≠ k2) :
    lookupKey (insertKey l k v) k2 = lookupKey l k2 := by
  induction l with
  | nil => simp [insertKey, lookupKey, h]
  | cons p rest ih =>
      obtain ⟨pk, pv⟩ := p
      by_cases hp : pk = k
      · subst hp
        simp only [insertKey, if_pos rfl]
        simp [lookupKey, h]
      · simp only [insertKey, if_neg hp]
        by_cases hk2 : pk = k2
        · simp [lookupKey, hk2]
        · simp [lookupKey, hk2, ih]

theorem lookupKey_insertKey_self {α : Type} (l : List (String × α)) (k : String) (v : α) :
    lookupKey (insertKey l k v) k = some v := by
  induction l with
  | nil => simp [insertKey, lookupKey]
  | cons p rest ih =>
      obtain ⟨pk, pv⟩ := p
      by_cases hp : pk = k
      · subst hp
        simp [insertKey, lookupKey]
      · simp [insertKey, lookupKey, hp, ih]

theorem lookupKey_dictMerge_none {α : Type} (base extra : List (String × α)) (k : String) :
    lookupKey extra k = none →
    lookupKey (dictMerge base extra) k = lookupKey base k := by
  induction extra generalizing base with
  | nil =>
      intro _
      rfl
  | cons p rest ih =>
      obtain ⟨pk, pv⟩ := p
      intro h
      by_cases hpk : pk = k
      · simp [lookupKey, hpk] at h
      · simp only [lookupKey, if_neg hpk] at h
        have hstep : dictMerge base ((pk, pv) :: rest)
            = dictMerge (insertKey base pk pv) rest := rfl
        rw [hstep, ih (insertKey base pk pv) h,
          lookupKey_insertKey_ne base pk k pv hpk]

theorem lookupKey_insertKey_isSome {α : Type} (l : List (String × α)) (k k2 : String)
    (v : α) (h : (lookupKey l k2).isSome = true) :
    (lookupKey (insertKey l k v) k2).isSome = true := by
  by_cases hk : k = k2
  · subst hk
    rw [lookupKey_insertKey_self]
    rfl
  · rw [lookupKey_insertKey_ne l k k2 v hk]
    exact h

theorem lookupKey_dictMerge_isSome {α : Type} (base extra : List (String × α)) (k : String)
    (h : (lookupKey base k).isSome = true) :
    (lookupKey (dictMerge base extra) k).isSome = true := by
  induction extra generalizing base with
  | nil => exact h
  | cons p rest ih =>
      exact ih (insertKey base p.1 p.2)
        (lookupKey_insertKey_isSome base p.1 k p.2 h)

/-! ## The claims -/

/-- C7: for every configured base URL and every endpoint path, the resolved
absolute URL is the slash-stripped base, one separating slash, and the
slash-stripped endpoint; the stripped base never ends in a slash and the
stripped endpoint never starts with one, and adding a trailing slash to the
base or a leading slash to the endpoint does not change the resolved URL. -/
theorem c7_url_single_slash (base endpoint : String) :
    joinUrlStr base endpoint
      = String.mk (rstripSlash base.data ++ '/' :: lstripSlash endpoint.data)
    ∧ (rstripSlash base.data).getLast? ≠ some '/'
    ∧ (lstripSlash endpoint.data).head? ≠ some '/'
    ∧ joinUrl (base.data ++ ['/']) endpoint.data = joinUrl base.data endpoint.data
    ∧ joinUrl base.data ('/' :: endpoint.data) = joinUrl base.data endpoint.data := by
  refine ⟨rfl, rstripSlash_no_trailing base.data, lstripSlash_no_leading endpoint.data,
    ?_, ?_⟩
  · unfold joinUrl
    rw [rstripSlash_append_slash]
  · unfold joinUrl
    rw [lstripSlash_cons_slash]

/-- C7 witness: the join property evaluated at a concrete base URL with
trailing slashes and a concrete endpoint with leading slashes. -/
theorem c7_witness :
    joinUrl ("https://albert.api.etalab.gouv.fr".data ++ ['/']) "/v1/models".data
      = joinUrl "https://albert.api.etalab.gouv.fr".data "/v1/models".data
    ∧ (rstripSlash "https://albert.api.etalab.gouv.fr//".data).getLast? ≠ some '/'
    ∧ joinUrlStr "https://albert.api.etalab.gouv.fr//" "//v1/models"
      = "https://albert.api.etalab.gouv.fr/v1/models" :=
  ⟨(c7_url_single_slash "https://albert.api.etalab.gouv.fr" "/v1/models").2.2.2.1,
   (c7_url_single_slash "https://albert.api.etalab.gouv.fr//" "/v1/models").2.1,
   rfl⟩

/-- C6: a response with status code 204 yields the empty result, whatever the
response body and whatever the JSON decoder would say about it. -/
theorem c6_no_content (c : Client) (method endpoint : String) (args : RequestArgs)
    (r : RawResponse) (h : r.statusCode = 204) :
    (_make_request c method endpoint args (.response r)).result = .ok (.obj []) := by
  simp [_make_request, interpretOutcome, h]

/-- C6 witness: a concrete 204 response whose body is not even valid JSON
still yields the empty result. -/
theorem c6_witness :
    (_make_request demoClient "DELETE" "/v1/collections/7" {}
        (.response { statusCode := 204, body := "junk", jsonResult := .error "boom" })).result
      = .ok (.obj []) :=
  c6_no_content demoClient "DELETE" "/v1/collections/7" {}
    { statusCode := 204, body := "junk", jsonResult := .error "boom" } rfl

/-- C5: a response with a success status (below 400, not 204) whose body the
JSON decoder rejects yields the decode-classified error carrying the original
parse failure description — never an unclassified crash or a silent empty
result. (`DecodeError` is realized in the source as `RuntimeError` with the
distinguishing message prefix `Failed to parse JSON response: `.) -/
theorem c5_decode_error (c : Client) (method endpoint : String) (args : RequestArgs)
    (r : RawResponse) (desc : String) (hs : r.statusCode < 400)
    (h204 : r.statusCode ≠ 204) (hj : r.jsonResult = .error desc) :
    (_make_request c method endpoint args (.response r)).result
      = .error (.runtimeError ("Failed to parse JSON response: " ++ desc)) := by
  have h1 : ¬(400 ≤ r.statusCode ∧ r.statusCode < 600) := by omega
  simp [_make_request, interpretOutcome, h1, h204, hj]

/-- C5 witness: a concrete 200 response carrying an HTML body the decoder
rejects yields the decode error with the decoder's description. -/
theorem c5_witness :
    (_make_request demoClient "GET" "/v1/models" {}
        (.response { statusCode := 200, body := "<html>down</html>",
                     jsonResult := .error "Expecting value: line 1 column 1 (char 0)" })).result
      = .error (.runtimeError
          ("Failed to parse JSON response: " ++ "Expecting value: line 1 column 1 (char 0)")) :=
  c5_decode_error demoClient "GET" "/v1/models" {}
    { statusCode := 200, body := "<html>down</html>",
      jsonResult := .error "Expecting value: line 1 column 1 (char 0)" }
    "Expecting value: line 1 column 1 (char 0)" (by decide) (by decide) rfl

/-- C1 counterexample: two 404 responses with different raw bodies produce
literally the same error value (the raw body is not carried), that value is
also produced by a connection-level failure with a matching description (the
caller cannot distinguish a platform-rejected request from a transport
failure), and it is the generic `RuntimeError`, not a dedicated status-error
kind. -/
theorem c1_counterexample :
    ((_make_request demoClient "GET" "/v1/models" {} (.response resp404A)).result
        = (_make_request demoClient "GET" "/v1/models" {} (.response resp404B)).result)
    ∧ ((_make_request demoClient "GET" "/v1/models" {}
          (.connectionFailure
            (statusErrorMessage 404 (joinUrlStr demoClient.base_url "/v1/models")))).result
        = (_make_request demoClient "GET" "/v1/models" {} (.response resp404A)).result)
    ∧ ((_make_request demoClient "GET" "/v1/models" {} (.response resp404A)).result
        = .error (.runtimeError ("API request failed: "
            ++ statusErrorMessage 404 (joinUrlStr demoClient.base_url "/v1/models")))) :=
  ⟨rfl, rfl, rfl⟩

/-- C1 (amended): for every dispatched request whose response status is in
the 4xx/5xx range, the call raises the generic `RuntimeError` whose message
embeds the status code and the URL but not the response body; status
failures are not a dedicated error kind distinguishable from transport
failures. -/
theorem c1_amended (c : Client) (method endpoint : String) (args : RequestArgs)
    (r : RawResponse) (h4 : 400 ≤ r.statusCode) (h6 : r.statusCode < 600) :
    (_make_request c method endpoint args (.response r)).result
      = .error (.runtimeError ("API request failed: "
          ++ statusErrorMessage r.statusCode (joinUrlStr c.base_url endpoint))) := by
  have h1 : 400 ≤ r.statusCode ∧ r.statusCode < 600 := ⟨h4, h6⟩
  simp [_make_request, interpretOutcome, h1]

/-- C1 witness: the amended statement evaluated on a concrete 500 response. -/
theorem c1_witness :
    (_make_request demoClient "POST" "/v1/search" {}
        (.response { statusCode := 500, body := "internal error",
                     jsonResult := .error "boom" })).result
      = .error (.runtimeError ("API request failed: "
          ++ statusErrorMessage 500 (joinUrlStr demoClient.base_url "/v1/search"))) :=
  c1_amended demoClient "POST" "/v1/search" {}
    { statusCode := 500, body := "internal error", jsonResult := .error "boom" }
    (by decide) (by decide)

/-- C2 counterexample: `create_collection` called without a description does
NOT drop the `None`-valued key — the dispatched JSON body contains
`"description"` mapped to JSON `null`. -/
theorem c2_counterexample :
    ((create_collection demoClient "demo" none "private" demoOutcome).trace.map
        (fun d => d.jsonBody))
      = [some (.obj [("name", .str "demo"), ("description", .null),
                     ("visibility", .str "private")])] :=
  rfl

/-- C2 (amended): `create_token` drops `user` and `expires_at` from the JSON
body when they are not given (and includes them when they are), but
`create_collection` always includes `description`, serializing the absent
sentinel as JSON `null` rather than dropping the key. -/
theorem c2_amended (c : Client) (name visibility : String) (u e : Int)
    (description : String) (outcome : TransportOutcome) :
    ((create_token c name none none outcome).trace.map (fun d => d.jsonBody))
      = [some (.obj [("name", .str name)])]
    ∧ ((create_token c name (some u) (some e) outcome).trace.map (fun d => d.jsonBody))
      = [some (.obj [("name", .str name), ("user", .int u), ("expires_at", .int e)])]
    ∧ ((create_collection c name none visibility outcome).trace.map (fun d => d.jsonBody))
      = [some (.obj [("name", .str name), ("description", .null),
                     ("visibility", .str visibility)])]
    ∧ ((create_collection c name (some description) visibility outcome).trace.map
        (fun d => d.jsonBody))
      = [some (.obj [("name", .str name), ("description", .str description),
                     ("visibility", .str visibility)])] := by
  refine ⟨rfl, ?_, rfl, rfl⟩
  simp [create_token, _make_request, insertKey]

/-- C3: construction dispatches no request; it fails with the
configuration `ValueError` exactly when the base URL or the API key resolves
to an absent/empty value against the environment, succeeds when both are
truthy, and no per-call dispatch ever re-raises a configuration error. -/
theorem c3_construction (base_url api_key : Option String) (timeout : Nat) (env : Env) :
    (init base_url api_key timeout env).1 = []
    ∧ (pyTruthy (resolveArg base_url env.albert_api_base_url) = false →
        (init base_url api_key timeout env).2
          = .error (.valueError baseUrlRequiredMsg))
    ∧ (pyTruthy (resolveArg base_url env.albert_api_base_url) = true →
       pyTruthy (resolveArg api_key env.albert_api_key) = false →
        (init base_url api_key timeout env).2
          = .error (.valueError apiKeyRequiredMsg))
    ∧ (pyTruthy (resolveArg base_url env.albert_api_base_url) = true →
       pyTruthy (resolveArg api_key env.albert_api_key) = true →
        ∃ c : Client, (init base_url api_key timeout env).2 = .ok c)
    ∧ (∀ (c : Client) (method endpoint : String) (args : RequestArgs)
         (outcome : TransportOutcome) (msg : String),
        (_make_request c method endpoint args outcome).result
          ≠ .error (.valueError msg)) := by
  refine ⟨?_, ?_, ?_, ?_, ?_⟩
  · simp only [init]
    split
    · rfl
    · split
      · rfl
      · rfl
  · intro h1
    simp [init, h1]
  · intro h1 h2
    simp [init, h1, h2]
  · intro h1 h2
    refine ⟨{ base_url := (resolveArg base_url env.albert_api_base_url).getD ""
              api_key := (resolveArg api_key env.albert_api_key).getD ""
              timeout := timeout
              session :=
                { headers :=
                    [("Authorization",
                        "Bearer " ++ (resolveArg api_key env.albert_api_key).getD ""),
                     ("Content-Type", "application/json")] } }, ?_⟩
    simp [init, h1, h2]
  · intro c method endpoint args outcome msg
    show interpretOutcome (joinUrlStr c.base_url endpoint) outcome ≠ _
    cases outcome with
    | connectionFailure d => simp [interpretOutcome]
    | response r =>
        simp only [interpretOutcome]
        split
        · simp
        · split
          · simp
          · cases hj : r.jsonResult with
            | ok v => simp [hj]
            | error d => simp [hj]

/-- C3 witness: constructing with an empty base URL and an empty environment
fails with the configuration error, constructing with both values present
succeeds, and a concrete call never surfaces a configuration error. -/
theorem c3_witness :
    (init (some "") none 30
        { albert_api_base_url := none, albert_api_key := none }).2
      = .error (.valueError baseUrlRequiredMsg)
    ∧ (∃ c : Client,
        (init (some "https://albert.api.etalab.gouv.fr") (some "secret-key") 30
            { albert_api_base_url := none, albert_api_key := none }).2 = .ok c)
    ∧ (_make_request demoClient "GET" "/v1/models" {} demoOutcome).result
      ≠ .error (.valueError "x") := by
  have h1 := c3_construction (some "") none 30
    { albert_api_base_url := none, albert_api_key := none }
  have h2 := c3_construction (some "https://albert.api.etalab.gouv.fr")
    (some "secret-key") 30 { albert_api_base_url := none, albert_api_key := none }
  exact ⟨h1.2.1 rfl, h2.2.2.2.1 rfl rfl,
    h2.2.2.2.2 demoClient "GET" "/v1/models" {} demoOutcome "x"⟩

/-- C4: every multipart operation given a file path that does not exist
fails with the `FileNotFoundError` for that operation and dispatches zero
requests through the transport. -/
theorem c4_missing_file (c : Client) (fs : FileSystem) (file_path model : String)
    (collection_id : Int) (kwargs : List (String × JsonValue))
    (outcome : TransportOutcome) (h : file_path ∉ (fs : List String)) :
    ((transcribe_audio c fs file_path model kwargs outcome).trace = []
      ∧ (transcribe_audio c fs file_path model kwargs outcome).result
          = .error (.fileNotFoundError ("Audio file not found: " ++ file_path)))
    ∧ ((parse_document c fs file_path kwargs outcome).trace = []
      ∧ (parse_document c fs file_path kwargs outcome).result
          = .error (.fileNotFoundError ("Document file not found: " ++ file_path)))
    ∧ ((ocr_document c fs file_path model kwargs outcome).trace = []
      ∧ (ocr_document c fs file_path model kwargs outcome).result
          = .error (.fileNotFoundError ("PDF file not found: " ++ file_path)))
    ∧ ((create_document c fs file_path collection_id kwargs outcome).trace = []
      ∧ (create_document c fs file_path collection_id kwargs outcome).result
          = .error (.fileNotFoundError ("Document file not found: " ++ file_path))) := by
  simp [transcribe_audio, parse_document, ocr_document, create_document, if_neg h]

/-- C4 witness: a concrete missing path fails locally with an empty trace. -/
theorem c4_witness :
    (transcribe_audio demoClient ["exists.mp3"] "missing.mp3" "whisper" [] demoOutcome).trace
      = []
    ∧ (transcribe_audio demoClient ["exists.mp3"] "missing.mp3" "whisper" [] demoOutcome).result
      = .error (.fileNotFoundError ("Audio file not found: " ++ "missing.mp3"))
    ∧ (create_document demoClient ["exists.mp3"] "missing.pdf" 3 [] demoOutcome).trace
      = [] := by
  have h1 := c4_missing_file demoClient ["exists.mp3"] "missing.mp3" "whisper" 3 []
    demoOutcome (by decide)
  have h2 := c4_missing_file demoClient ["exists.mp3"] "missing.pdf" "whisper" 3 []
    demoOutcome (by decide)
  exact ⟨h1.1.1, h1.1.2, h2.2.2.2.1⟩

/-- C8: `get_documents` with the omitted collection filter sends exactly the
`limit` and `offset` query parameters and no `collection` key at all; with a
present collection identifier the `collection` parameter is appended. -/
theorem c8_optional_query (c : Client) (limit offset cid : Int)
    (outcome : TransportOutcome) :
    ((get_documents c none limit offset outcome).trace.map (fun d => d.params))
      = [[("limit", toString limit), ("offset", toString offset)]]
    ∧ (∀ d ∈ (get_documents c none limit offset outcome).trace,
        lookupKey d.params "collection" = none)
    ∧ ((get_documents c (some cid) limit offset outcome).trace.map (fun d => d.params))
      = [[("limit", toString limit), ("offset", toString offset),
          ("collection", toString cid)]] := by
  refine ⟨rfl, ?_, ?_⟩
  · intro d hd
    simp only [get_documents, _make_request, List.mem_singleton] at hd
    subst hd
    simp [lookupKey]
  · simp [get_documents, _make_request, insertKey]

/-- C8 witness: the query parameters at concrete pagination values. -/
theorem c8_witness :
    (∀ d ∈ (get_documents demoClient none 10 0 demoOutcome).trace,
        lookupKey d.params "collection" = none)
    ∧ ((get_documents demoClient (some 7) 10 0 demoOutcome).trace.map
        (fun d => d.params))
      = [[("limit", toString (10 : Int)), ("offset", toString (0 : Int)),
          ("collection", toString (7 : Int))]] := by
  have h := c8_optional_query demoClient 10 0 7 demoOutcome
  exact ⟨h.2.1, h.2.2⟩

/-- C9: a successfully constructed client's session default headers are
exactly the bearer credential and the JSON content type, every request the
dispatcher sends carries those session headers, and no operation mutates the
client (in particular its session header set) — the client state after every
modelled operation equals the state before it. -/
theorem c9_session_headers (base_url api_key : Option String) (timeout : Nat)
    (env : Env) (c : Client) (h : (init base_url api_key timeout env).2 = .ok c)
    (method endpoint : String) (args : RequestArgs) (outcome : TransportOutcome)
    (fs : FileSystem) (file_path model prompt name : String)
    (kwargs : List (String × JsonValue)) (collection_id : Int)
    (description : Option String) (user expires_at : Option Int)
    (coll : Option (List Int)) (cid : Option Int) (limit offset : Int) :
    c.session.headers
      = [("Authorization", "Bearer " ++ c.api_key),
         ("Content-Type", "application/json")]
    ∧ (_make_request c method endpoint args outcome).client = c
    ∧ (∀ d ∈ (_make_request c method endpoint args outcome).trace,
        d.headers = c.session.headers)
    ∧ (transcribe_audio c fs file_path model kwargs outcome).client = c
    ∧ (parse_document c fs file_path kwargs outcome).client = c
    ∧ (ocr_document c fs file_path model kwargs outcome).client = c
    ∧ (create_document c fs file_path collection_id kwargs outcome).client = c
    ∧ (create_collection c name description "private" outcome).client = c
    ∧ (create_token c name user expires_at outcome).client = c
    ∧ (get_documents c cid limit offset outcome).client = c
    ∧ (search c prompt coll kwargs outcome).client = c := by
  refine ⟨?_, rfl, ?_, ?_, ?_, ?_, ?_, rfl, rfl, rfl, rfl⟩
  · cases h1 : pyTruthy (resolveArg base_url env.albert_api_base_url) with
    | false => simp [init, h1] at h
    | true =>
        cases h2 : pyTruthy (resolveArg api_key env.albert_api_key) with
        | false => simp [init, h1, h2] at h
        | true =>
            simp [init, h1, h2] at h
            subst h
            rfl
  · intro d hd
    simp only [_make_request, List.mem_singleton] at hd
    subst hd
    rfl
  · unfold transcribe_audio
    split
    · rfl
    · rfl
  · unfold parse_document
    split
    · rfl
    · rfl
  · unfold ocr_document
    split
    · rfl
    · rfl
  · unfold create_document
    split
    · rfl
    · rfl

/-- C9 witness: the constructed demo client's headers, the headers on a
concrete dispatch, and the unchanged client after a concrete call. -/
theorem c9_witness :
    demoClient.session.headers
      = [("Authorization", "Bearer secret-key"), ("Content-Type", "application/json")]
    ∧ (∀ d ∈ (_make_request demoClient "GET" "/v1/models" {} demoOutcome).trace,
        d.headers = demoClient.session.headers)
    ∧ (search demoClient "q" none [] demoOutcome).client = demoClient := by
  have h := c9_session_headers (some "https://albert.api.etalab.gouv.fr")
    (some "secret-key") 30 { albert_api_base_url := none, albert_api_key := none }
    demoClient rfl "GET" "/v1/models" {} demoOutcome [] "f.mp3" "whisper" "q" "n"
    [] 3 none none none none none 10 0
  refine ⟨?_, h.2.2.1, h.2.2.2.2.2.2.2.2.2.2⟩
  rw [h.1]
  rfl

/-- C10: a `search` call whose `collections` argument is `None` or the empty
list dispatches a JSON body whose `collections` key is present and mapped to
the empty list (provided the extra keyword arguments do not themselves bind
`collections`); moreover, for every `collections` argument and every extra
keyword mapping, the `collections` key is present in the body. -/
theorem c10_search_collections (c : Client) (prompt : String)
    (kwargs : List (String × JsonValue)) (outcome : TransportOutcome)
    (hk : lookupKey kwargs "collections" = none) :
    ((search c prompt none kwargs outcome).trace.map
        (fun d => d.jsonBody.map (fun j => objLookup j "collections")))
      = [some (some (.arr []))]
    ∧ ((search c prompt (some []) kwargs outcome).trace.map
        (fun d => d.jsonBody.map (fun j => objLookup j "collections")))
      = [some (some (.arr []))]
    ∧ (∀ (colls : Option (List Int)) (kw : List (String × JsonValue)),
        (search c prompt colls kw outcome).trace.map
          (fun d => d.jsonBody.map (fun j => (objLookup j "collections").isSome))
          = [some true]) := by
  have hbase : lookupKey
      [("prompt", JsonValue.str prompt), ("collections", JsonValue.arr [])]
      "collections" = some (.arr []) := by
    simp [lookupKey]
  refine ⟨?_, ?_, ?_⟩
  · show [some (lookupKey (dictMerge
        [("prompt", JsonValue.str prompt), ("collections", JsonValue.arr [])] kwargs)
        "collections")] = _
    rw [lookupKey_dictMerge_none
      [("prompt", JsonValue.str prompt), ("collections", JsonValue.arr [])]
      kwargs "collections" hk, hbase]
  · show [some (lookupKey (dictMerge
        [("prompt", JsonValue.str prompt), ("collections", JsonValue.arr [])] kwargs)
        "collections")] = _
    rw [lookupKey_dictMerge_none
      [("prompt", JsonValue.str prompt), ("collections", JsonValue.arr [])]
      kwargs "collections" hk, hbase]
  · intro colls kw
    cases colls with
    | none =>
        show [some (lookupKey (dictMerge
            [("prompt", JsonValue.str prompt), ("collections", JsonValue.arr [])] kw)
            "collections").isSome] = [some true]
        rw [lookupKey_dictMerge_isSome
          [("prompt", JsonValue.str prompt), ("collections", JsonValue.arr [])]
          kw "collections" (by simp [lookupKey])]
    | some l =>
        show [some (lookupKey (dictMerge
            [("prompt", JsonValue.str prompt),
             ("collections", JsonValue.arr
               ((if l.isEmpty then [] else l).map JsonValue.int))] kw)
            "collections").isSome] = [some true]
        rw [lookupKey_dictMerge_isSome
          [("prompt", JsonValue.str prompt),
           ("collections", JsonValue.arr
             ((if l.isEmpty then [] else l).map JsonValue.int))]
          kw "collections" (by simp [lookupKey])]

/-- C10 witness: concrete searches with `None` and with the empty list,
the second also carrying an unrelated extra keyword argument. -/
theorem c10_witness :
    ((search demoClient "query" none [] demoOutcome).trace.map
        (fun d => d.jsonBody.map (fun j => objLookup j "collections")))
      = [some (some (.arr []))]
    ∧ ((search demoClient "query" (some []) [("k", .int 5)] demoOutcome).trace.map
        (fun d => d.jsonBody.map (fun j => objLookup j "collections")))
      = [some (some (.arr []))] := by
  have h1 := c10_search_collections demoClient "query" [] demoOutcome rfl
  have h2 := c10_search_collections demoClient "query" [("k", .int 5)] demoOutcome
    (by simp [lookupKey])
  exact ⟨h1.1, h2.2.1⟩

end Albert
